import Mathlib

/-!
Verification of the presence/broadcast coordinator of the `api-streaming`
repository (src/src/services/socket.service.ts), shallowly embedded as an
executable state machine.

The embedding follows the TypeScript source:
- a `Conn` mirrors an authenticated Socket.IO socket together with the ad-hoc
  fields the service attaches to it (`isBroadcaster`, `streamUid`,
  `watchingStream`, `isAutoViewer`) and its transport room membership;
- `ServerState` holds the connected sockets, the Prisma `stream` table rows the
  handlers touch, the `activeStreamers` map and the pending debounce flag;
- each socket event handler becomes a function from a state and payload to a new
  state plus the list of emitted transport events (`Emit`);
- the 100ms debounce timer of `scheduleBroadcastUpdate` is modelled separately
  as `runDebounce` over abstract call/fire times, since wall-clock time is not
  otherwise observable in the handlers.

Timestamps carried in payloads (`new Date().toISOString()`) are omitted: they
are wall-clock values with no influence on control flow.
-/

namespace ApiStreaming

abbrev SocketId := Nat
abbrev Uid := String

/-- Decoded JWT payload attached to an authenticated socket
(`socket.user` in socket.service.ts). -/
structure JwtPayload where
  id : Nat
  displayName : String
  metroUsername : String
  role : String
  avatar : Option String
deriving DecidableEq, Repr

/-- Fixed placeholder avatar (`DEFAULT_AVATAR` in SocketService). -/
def DEFAULT_AVATAR : String :=
  "https://cdn-icons-png.flaticon.com/512/3541/3541871.png"

/-- Mirrors `getUserAvatar`: `user?.avatar || DEFAULT_AVATAR`; note that the
empty string is falsy in JavaScript, hence also falls back to the default. -/
def getUserAvatar (u : JwtPayload) : String :=
  match u.avatar with
  | some a => if a = "" then DEFAULT_AVATAR else a
  | none => DEFAULT_AVATAR

/-- Per-connection state: the authenticated user plus the dynamic fields the
service attaches to the socket, and the socket's transport room membership
(room `stream-X` is keyed here simply by the stream uid `X`). -/
structure Conn where
  user : JwtPayload
  isBroadcaster : Bool
  streamUid : Option Uid
  watchingStream : Option Uid
  isAutoViewer : Bool
  rooms : List Uid
deriving DecidableEq, Repr

/-- Fresh connection right after the authentication middleware accepted it:
none of the dynamic flags are set and it is in no room. -/
def Conn.mk0 (u : JwtPayload) : Conn :=
  ⟨u, false, none, none, false, []⟩

/-- Row of the Prisma `stream` table, restricted to the columns the socket
service reads or writes. -/
structure StreamRec where
  uid : Uid
  userId : Nat
  title : String
  status : String
deriving DecidableEq, Repr

/-- Whole coordinator state: connected sockets (`io.sockets.sockets`), the
stream table, the `activeStreamers` map and whether a debounced broadcast is
pending (`broadcastTimeout` armed). -/
structure ServerState where
  conns : List (SocketId × Conn)
  db : List StreamRec
  activeStreamers : List (Uid × SocketId)
  broadcastPending : Bool
deriving DecidableEq, Repr

/-- Lookup of a connected socket by id (first match). -/
def getConnAL : List (SocketId × Conn) → SocketId → Option Conn
  | [], _ => none
  | (s, c) :: r, sid => if s = sid then some c else getConnAL r sid

/-- Replace the state of socket `sid` (first match) by `c'`. -/
def setConnAL : List (SocketId × Conn) → SocketId → Conn → List (SocketId × Conn)
  | [], _, _ => []
  | (s, c) :: r, sid, c' => if s = sid then (s, c') :: r else (s, c) :: setConnAL r sid c'

/-- Remove socket `sid` (first match) from the connection table. -/
def eraseConnAL : List (SocketId × Conn) → SocketId → List (SocketId × Conn)
  | [], _ => []
  | (s, c) :: r, sid => if s = sid then r else (s, c) :: eraseConnAL r sid

/-- `Map.set` on the active-streamer registry: overwrite the entry for the key
if present, otherwise append it. -/
def msetAL : List (Uid × SocketId) → Uid → SocketId → List (Uid × SocketId)
  | [], k, v => [(k, v)]
  | (k', v') :: r, k, v => if k' = k then (k, v) :: r else (k', v') :: msetAL r k v

/-- `Map.delete` on the active-streamer registry (keys are unique, so removing
the first occurrence suffices). -/
def mdelAL : List (Uid × SocketId) → Uid → List (Uid × SocketId)
  | [], _ => []
  | (k', v') :: r, k => if k' = k then r else (k', v') :: mdelAL r k

/-- `Map.get` on the active-streamer registry. -/
def mgetAL : List (Uid × SocketId) → Uid → Option SocketId
  | [], _ => none
  | (k', v') :: r, k => if k' = k then some v' else mgetAL r k

def ServerState.getConn (st : ServerState) (sid : SocketId) : Option Conn :=
  getConnAL st.conns sid

/-- Whether `io.sockets.sockets` still holds an open socket with this id. -/
def ServerState.isConnected (st : ServerState) (sid : SocketId) : Bool :=
  (st.getConn sid).isSome

def ServerState.updConn (st : ServerState) (sid : SocketId) (c : Conn) : ServerState :=
  { st with conns := setConnAL st.conns sid c }

/-- `socket.join`: transport room join is idempotent. -/
def joinRoom (rooms : List Uid) (uid : Uid) : List Uid :=
  if uid ∈ rooms then rooms else rooms ++ [uid]

/-- `socket.leave`. -/
def leaveRoom (rooms : List Uid) (uid : Uid) : List Uid :=
  rooms.erase uid

/-- `io.in(room).fetchSockets()`: the connected sockets whose membership
includes room `stream-uid`. -/
def roomSockets (st : ServerState) (uid : Uid) : List (SocketId × Conn) :=
  st.conns.filter (fun p => decide (uid ∈ p.2.rooms))

/-- Socket ids reached by an `io.in(room).emit` (no sender exclusion). -/
def roomRecipients (st : ServerState) (uid : Uid) : List SocketId :=
  (roomSockets st uid).map Prod.fst

/-- Public viewer record as built in the handlers (id, names, role, avatar,
socket id, plus the optional `reason` field added on abrupt disconnect). -/
structure ViewerInfo where
  id : Nat
  displayName : String
  metroUsername : String
  role : String
  avatar : String
  socketId : SocketId
  reason : Option String
deriving DecidableEq, Repr

def mkViewerInfo (sid : SocketId) (u : JwtPayload) (reason : Option String) : ViewerInfo :=
  ⟨u.id, u.displayName, u.metroUsername, u.role, getUserAvatar u, sid, reason⟩

/-- Payload of a `viewer_update` notification to the broadcaster. -/
structure ViewerUpdatePayload where
  streamUid : Uid
  action : String
  viewer : ViewerInfo
  currentViewers : List ViewerInfo
  totalCount : Nat
deriving DecidableEq, Repr

/-- Sender block of a `new-message` envelope. -/
structure ChatUser where
  id : Nat
  displayName : String
  metroUsername : String
  role : String
  avatar : String
deriving DecidableEq, Repr

/-- `new-message` envelope (timestamp omitted). -/
structure MessageData where
  streamUid : Uid
  user : ChatUser
  message : String
deriving DecidableEq, Repr

/-- One stream as it appears in a `streams-list` payload. -/
structure StreamEntry where
  uid : Uid
  title : String
  status : String
  userId : Nat
  viewersCount : Nat
  streamerAvatar : String
deriving DecidableEq, Repr

/-- Transport emissions produced by the handlers. -/
inductive Emit where
  | errorTo (sid : SocketId) (event : Option String) (message : String)
  | userInfo (sid : SocketId)
  | streamsListTo (sid : SocketId) (streams : List StreamEntry)
  | streamsListAll (streams : List StreamEntry)
  | streamStarted (sid : SocketId) (streamUid : Uid) (status : String)
  | streamEnded (streamUid : Uid) (message : String) (reason : String) (status : Option String)
  | viewerUpdate (sid : SocketId) (payload : ViewerUpdatePayload)
  | newMessageRoom (room : Uid) (payload : MessageData)
deriving DecidableEq, Repr

/-- Recipient sockets of one emission: point-to-point events reach their
target, `io.emit` reaches every connected socket, and `io.in(room).emit`
reaches exactly the room members (the sender is not excluded). -/
def emitRecipients (st : ServerState) : Emit → List SocketId
  | .errorTo sid _ _ => [sid]
  | .userInfo sid => [sid]
  | .streamsListTo sid _ => [sid]
  | .streamsListAll _ => st.conns.map Prod.fst
  | .streamStarted sid _ _ => [sid]
  | .streamEnded _ _ _ _ => st.conns.map Prod.fst
  | .viewerUpdate sid _ => [sid]
  | .newMessageRoom room _ => roomRecipients st room

/-- Mirrors `notifyStreamerAboutViewers`: enumerate the room, filter the
viewers (`!isBroadcaster && isAutoViewer`), and if a broadcaster socket is in
the room send it a `viewer_update` with the current viewer list and count. -/
def notifyStreamerAboutViewers (st : ServerState) (uid : Uid) (action : String)
    (vi : ViewerInfo) : List Emit :=
  let room := roomSockets st uid
  let viewers := room.filter (fun p => !p.2.isBroadcaster && p.2.isAutoViewer)
  let viewerObjs := viewers.map (fun p => mkViewerInfo p.1 p.2.user none)
  match room.find? (fun p => p.2.isBroadcaster) with
  | some b => [Emit.viewerUpdate b.1 ⟨uid, action, vi, viewerObjs, viewerObjs.length⟩]
  | none => []

/-- `prisma.stream.findFirst({where:{uid, status:"active"}})`. -/
def findActiveStream (db : List StreamRec) (uid : Uid) : Option StreamRec :=
  db.find? (fun r => r.uid == uid && r.status == "active")

/-- `prisma.stream.findFirst({where:{uid, userId}})`. -/
def findOwnedStream (db : List StreamRec) (uid : Uid) (ownerId : Nat) : Option StreamRec :=
  db.find? (fun r => r.uid == uid && r.userId == ownerId)

/-- Whether `prisma.stream.update({where:{uid}})` finds its row (it throws
otherwise, landing in the handler's catch block). -/
def streamExists : List StreamRec → Uid → Bool
  | [], _ => false
  | r :: rest, uid => r.uid == uid || streamExists rest uid

/-- `prisma.stream.update({where:{uid}, data:{status}})`: set the status of
every row keyed by this uid (uids are unique in the table). -/
def updateStreamStatus : List StreamRec → Uid → String → List StreamRec
  | [], _, _ => []
  | r :: rest, uid, status =>
    (if r.uid = uid then { r with status := status } else r)
      :: updateStreamStatus rest uid status

/-- Status column of the row keyed by `uid`, if any. -/
def statusOf : List StreamRec → Uid → Option String
  | [], _ => none
  | r :: rest, uid => if r.uid = uid then some r.status else statusOf rest uid

/-- Entry built by `sendInitialStreamsList`: note its viewer filter is
`!isBroadcaster && watchingStream === stream.uid`. -/
def initialEntry (st : ServerState) (r : StreamRec) : StreamEntry :=
  let room := roomSockets st r.uid
  let vc := (room.filter (fun p => !p.2.isBroadcaster && p.2.watchingStream == some r.uid)).length
  let av := match room.find? (fun p => p.2.isBroadcaster) with
    | some b => getUserAvatar b.2.user
    | none => DEFAULT_AVATAR
  ⟨r.uid, r.title, r.status, r.userId, vc, av⟩

def initialStreamsList (st : ServerState) : List StreamEntry :=
  (st.db.filter (fun r => r.status == "active")).map (initialEntry st)

/-- Entry built by `broadcastUpdatedStreamsList`: its viewer filter is
`!isBroadcaster && isAutoViewer`. -/
def broadcastEntry (st : ServerState) (r : StreamRec) : StreamEntry :=
  let room := roomSockets st r.uid
  let vc := (room.filter (fun p => !p.2.isBroadcaster && p.2.isAutoViewer)).length
  let av := match room.find? (fun p => p.2.isBroadcaster) with
    | some b => getUserAvatar b.2.user
    | none => DEFAULT_AVATAR
  ⟨r.uid, r.title, r.status, r.userId, vc, av⟩

def broadcastStreamsList (st : ServerState) : List StreamEntry :=
  (st.db.filter (fun r => r.status == "active")).map (broadcastEntry st)

/-- `sendInitialStreamsList(socket)`. -/
def sendInitialStreamsList (st : ServerState) (sid : SocketId) : List Emit :=
  [Emit.streamsListTo sid (initialStreamsList st)]

/-- Firing of the debounced `broadcastUpdatedStreamsList`. -/
def broadcastUpdatedStreamsList (st : ServerState) : List Emit :=
  [Emit.streamsListAll (broadcastStreamsList st)]

/-- Specification-side viewer count, following the spec's words: the number of
connections in `room(streamUid)` with `isAutoViewer=true` and
`isBroadcaster=false`, recomputed from live room membership. -/
def specViewerCount (st : ServerState) (uid : Uid) : Nat :=
  ((roomSockets st uid).filter (fun p => p.2.isAutoViewer && !p.2.isBroadcaster)).length

/-- Viewer count actually used by the initial snapshot: room members with
`watchingStream` equal to this stream and not a broadcaster. -/
def watchingViewerCount (st : ServerState) (uid : Uid) : Nat :=
  ((roomSockets st uid).filter (fun p => !p.2.isBroadcaster && p.2.watchingStream == some uid)).length

/-- `handleWatchLive`: require an active stream row, then join the room, set
`watchingStream` and `isAutoViewer`, notify the broadcaster and arm the
debounced broadcast. -/
def handleWatchLive (st : ServerState) (sid : SocketId) (c : Conn) (uid : Uid) :
    ServerState × List Emit :=
  match findActiveStream st.db uid with
  | none => (st, [Emit.errorTo sid none "El stream no está disponible"])
  | some _ =>
    let c' := { c with rooms := joinRoom c.rooms uid, watchingStream := some uid,
                       isAutoViewer := true }
    let st' := st.updConn sid c'
    let emits := notifyStreamerAboutViewers st' uid "joined" (mkViewerInfo sid c.user none)
    ({ st' with broadcastPending := true }, emits)

/-- `handleStopWatching`: unconditionally leave the room, clear the viewer
fields, notify the broadcaster with action `left`, and arm the broadcast.
There is no check that the connection was actually watching. -/
def handleStopWatching (st : ServerState) (sid : SocketId) (c : Conn) (uid : Uid) :
    ServerState × List Emit :=
  let c' := { c with rooms := leaveRoom c.rooms uid, watchingStream := none,
                     isAutoViewer := false }
  let st' := st.updConn sid c'
  let emits := notifyStreamerAboutViewers st' uid "left" (mkViewerInfo sid c.user none)
  ({ st' with broadcastPending := true }, emits)

/-- `handleStartStreaming`: require a stream row with this uid owned by the
caller; on success set the row active, mark the socket as broadcaster, join the
room, overwrite the registry entry, arm the broadcast and confirm. -/
def handleStartStreaming (st : ServerState) (sid : SocketId) (c : Conn) (uid : Uid) :
    ServerState × List Emit :=
  match findOwnedStream st.db uid c.user.id with
  | none => (st, [Emit.errorTo sid none "Stream no encontrado o no tienes permisos"])
  | some _ =>
    let c' := { c with isBroadcaster := true, streamUid := some uid,
                       rooms := joinRoom c.rooms uid }
    let st' := { st.updConn sid c' with
                   db := updateStreamStatus st.db uid "active",
                   activeStreamers := msetAL st.activeStreamers uid sid,
                   broadcastPending := true }
    (st', [Emit.streamStarted sid uid "true"])

/-- `handleEndStreaming`: the source awaits the ownership `findFirst` but never
inspects its result, so any caller reaching the handler ends the stream. If the
row exists the update succeeds: status goes offline, the caller's flags are
cleared, the registry entry is removed and a global `stream_ended` with reason
`manual` is emitted; if the row does not exist the update throws and the catch
block replies with a generic error. -/
def handleEndStreaming (st : ServerState) (sid : SocketId) (c : Conn) (uid : Uid) :
    ServerState × List Emit :=
  if streamExists st.db uid then
    let c' := { c with isBroadcaster := false, streamUid := none }
    let st' := { st.updConn sid c' with
                   db := updateStreamStatus st.db uid "offline",
                   activeStreamers := mdelAL st.activeStreamers uid,
                   broadcastPending := true }
    (st', [Emit.streamEnded uid ("Stream finalizado por " ++ c.user.displayName)
             "manual" (some "false")])
  else
    (st, [Emit.errorTo sid none "Error al finalizar stream"])

/-- `cleanupOrphanedStream`: drop the registry entry, then mark the row offline
and emit the global `stream_ended{reason: tcp_disconnection}`; if the row is
missing the update throws and the catch block only logs (the entry stays
deleted, nothing is emitted). -/
def cleanupOrphanedStream (st : ServerState) (uid : Uid) : ServerState × List Emit :=
  let st1 := { st with activeStreamers := mdelAL st.activeStreamers uid }
  if streamExists st1.db uid then
    ({ st1 with db := updateStreamStatus st1.db uid "offline", broadcastPending := true },
     [Emit.streamEnded uid "Stream finalizado: conexión TCP perdida" "tcp_disconnection" none])
  else
    (st1, [])

/-- `checkDisconnectedStreamers` body: sweep the registry entries and clean up
every one whose socket is no longer connected. -/
def orphanSweep : ServerState → List (Uid × SocketId) → ServerState × List Emit
  | st, [] => (st, [])
  | st, (uid, sid) :: rest =>
    if st.isConnected sid then orphanSweep st rest
    else
      let r := cleanupOrphanedStream st uid
      let r' := orphanSweep r.1 rest
      (r'.1, r.2 ++ r'.2)

def checkDisconnectedStreamers (st : ServerState) : ServerState × List Emit :=
  orphanSweep st st.activeStreamers

/-- `handleDisconnect`: when the callback runs the socket has already left the
namespace and all rooms. A broadcaster is only removed from the registry (no
database change, no emission); a watcher triggers a `left` notification with
reason `disconnected` and arms the broadcast. -/
def handleDisconnect (st : ServerState) (sid : SocketId) (c : Conn) :
    ServerState × List Emit :=
  let st0 := { st with conns := eraseConnAL st.conns sid }
  let st1 := match c.streamUid with
    | some s => if c.isBroadcaster then
                  { st0 with activeStreamers := mdelAL st0.activeStreamers s }
                else st0
    | none => st0
  match c.watchingStream with
  | some w =>
    let emits := notifyStreamerAboutViewers st1 w "left"
      (mkViewerInfo sid c.user (some "disconnected"))
    ({ st1 with broadcastPending := true }, emits)
  | none => (st1, [])

/-- Inbound events of the coordinator. `start_streaming`/`end_streaming`
handlers are only registered for sockets whose role is `metro_streamer`
(setupRoleBasedEvents); for any other role the event is silently ignored. -/
inductive Event where
  | connect (sid : SocketId) (user : JwtPayload)
  | getStreams (sid : SocketId)
  | watchLive (sid : SocketId) (uid : Uid)
  | stopWatching (sid : SocketId) (uid : Uid)
  | startStreaming (sid : SocketId) (uid : Uid)
  | endStreaming (sid : SocketId) (uid : Uid)
  | disconnect (sid : SocketId)
  | orphanCheck
deriving DecidableEq, Repr

def stepE (st : ServerState) (e : Event) : ServerState × List Emit :=
  match e with
  | .connect sid user =>
    if st.isConnected sid then (st, [])
    else
      let st' := { st with conns := st.conns ++ [(sid, Conn.mk0 user)] }
      (st', Emit.userInfo sid :: sendInitialStreamsList st' sid)
  | .getStreams sid =>
    match st.getConn sid with
    | some _ => (st, sendInitialStreamsList st sid)
    | none => (st, [])
  | .watchLive sid uid =>
    match st.getConn sid with
    | some c => handleWatchLive st sid c uid
    | none => (st, [])
  | .stopWatching sid uid =>
    match st.getConn sid with
    | some c => handleStopWatching st sid c uid
    | none => (st, [])
  | .startStreaming sid uid =>
    match st.getConn sid with
    | some c =>
      if c.user.role = "metro_streamer" then handleStartStreaming st sid c uid
      else (st, [])
    | none => (st, [])
  | .endStreaming sid uid =>
    match st.getConn sid with
    | some c =>
      if c.user.role = "metro_streamer" then handleEndStreaming st sid c uid
      else (st, [])
    | none => (st, [])
  | .disconnect sid =>
    match st.getConn sid with
    | some c => handleDisconnect st sid c
    | none => (st, [])
  | .orphanCheck => checkDisconnectedStreamers st

def step (st : ServerState) (e : Event) : ServerState :=
  (stepE st e).1

def run (st : ServerState) (es : List Event) : ServerState :=
  es.foldl step st

def runTrace (st : ServerState) (es : List Event) : ServerState × List Emit :=
  es.foldl (fun acc e => let r := stepE acc.1 e; (r.1, acc.2 ++ r.2)) (st, [])

/-- Coordinator state at boot: no sockets, no tracked streamers, no pending
broadcast; the stream table is whatever the external directory holds. -/
def initState (db : List StreamRec) : ServerState :=
  ⟨[], db, [], false⟩

/-- A JavaScript value as far as the chat validations observe it: either a
string or anything else (`typeof !== 'string'`). -/
inductive JSVal where
  | str (s : String)
  | notStr
deriving DecidableEq, Repr

/-- Whitespace as recognised by JavaScript's `String.prototype.trim`
(restricted to the ASCII whitespace characters). -/
def isJsWS (ch : Char) : Bool :=
  ch = ' ' || ch = '\t' || ch = '\n' || ch = '\r' || ch = '\x0b' || ch = '\x0c'

/-- `message.trim()`: strip leading and trailing whitespace. -/
def jsTrim (s : String) : String :=
  ⟨((s.data.dropWhile isJsWS).reverse.dropWhile isJsWS).reverse⟩

/-- Envelope constructed by `handleSendMessage` on success: broadcaster senders
get the suffix " (Anfitrión)" appended to their display name, and the message
is stored trimmed. -/
def chatEnvelope (c : Conn) (u : Uid) (m : String) : MessageData :=
  ⟨u,
   ⟨c.user.id,
    if c.isBroadcaster then c.user.displayName ++ " (Anfitrión)" else c.user.displayName,
    c.user.metroUsername, c.user.role, getUserAvatar c.user⟩,
   jsTrim m⟩

/-- `handleSendMessage` validation and relay. `!streamUid` is JavaScript
falsiness, so the empty string is rejected like a non-string; likewise for
`message`, which is additionally rejected when whitespace-only after trimming.
On success a single `new-message` is emitted to the whole room via
`io.in(room)`. -/
def handleSendMessage (sid : SocketId) (c : Conn) (streamUidV messageV : JSVal) :
    List Emit :=
  match streamUidV with
  | .notStr => [Emit.errorTo sid (some "send-message") "ID de stream inválido"]
  | .str uid =>
    if uid = "" then [Emit.errorTo sid (some "send-message") "ID de stream inválido"]
    else
      match messageV with
      | .notStr => [Emit.errorTo sid (some "send-message") "El mensaje no puede estar vacío"]
      | .str m =>
        if jsTrim m = "" then
          [Emit.errorTo sid (some "send-message") "El mensaje no puede estar vacío"]
        else
          [Emit.newMessageRoom uid (chatEnvelope c uid m)]

/-- Debounce delay of `scheduleBroadcastUpdate` (milliseconds). -/
def DEBOUNCE_MS : Nat := 100

/-- Timer semantics of `scheduleBroadcastUpdate`/`setTimeout`: given the
pending fire time (if armed) and the remaining schedule-call times in
increasing order, return the times at which `broadcastUpdatedStreamsList`
actually fires. A call always cancels a still-pending timer and re-arms it
`DEBOUNCE_MS` after itself; a timer due at or before the next call fires
first. -/
def runDebounce : Option Nat → List Nat → List Nat
  | none, [] => []
  | some f, [] => [f]
  | none, t :: rest => runDebounce (some (t + DEBOUNCE_MS)) rest
  | some f, t :: rest =>
    if f ≤ t then f :: runDebounce (some (t + DEBOUNCE_MS)) rest
    else runDebounce (some (t + DEBOUNCE_MS)) rest

/-- Fire times resulting from a sequence of `scheduleBroadcastUpdate` calls
starting with no timer armed. -/
def debounceRun (calls : List Nat) : List Nat :=
  runDebounce none calls

/-- Each schedule call lands strictly inside the debounce window opened by the
previous call. -/
def withinWindowB : Nat → List Nat → Bool
  | _, [] => true
  | p, t :: rest => decide (t < p + DEBOUNCE_MS) && withinWindowB t rest

/-- Last element of `c :: cs`. -/
def lastCall (c : Nat) (cs : List Nat) : Nat :=
  cs.foldl (fun _ x => x) c

/-- The broadcasts (fire time together with the emission of
`broadcastUpdatedStreamsList`) produced by a burst of schedule calls against a
coordinator state. -/
def debounceBroadcasts (st : ServerState) (calls : List Nat) : List (Nat × List Emit) :=
  (debounceRun calls).map (fun t => (t, broadcastUpdatedStreamsList st))

/-! Concrete fixtures used by the witnesses and counterexamples below. -/

/-- Legitimate owner of stream `s1` (user id 1), broadcaster-capable. -/
def uOwner : JwtPayload := ⟨1, "Ana", "ana", "metro_streamer", none⟩

/-- Second device of the same owner identity (same user id 1). -/
def uOwner2 : JwtPayload := ⟨1, "Ana", "ana2", "metro_streamer", none⟩

/-- A different broadcaster-capable user (user id 2) who does not own `s1`. -/
def uEve : JwtPayload := ⟨2, "Eve", "eve", "metro_streamer", none⟩

/-- A plain viewer-role user. -/
def uVera : JwtPayload := ⟨3, "Vera", "vera", "viewer", none⟩

/-- Directory with one active stream `s1` owned by user 1. -/
def dbOne : List StreamRec := [⟨"s1", 1, "t1", "active"⟩]

/-- Directory with stream `s1` owned by user 1, currently offline. -/
def dbOff : List StreamRec := [⟨"s1", 1, "t1", "offline"⟩]

/-- Directory with two active streams `a` and `b`, both owned by user 1. -/
def dbTwo : List StreamRec := [⟨"a", 1, "ta", "active"⟩, ⟨"b", 1, "tb", "active"⟩]

/-- Number of `viewer_update` notifications with action `left` addressed to
socket `bsid` in a trace. -/
def countViewerLeft (bsid : SocketId) (es : List Emit) : Nat :=
  (es.filter (fun e =>
    match e with
    | .viewerUpdate sid p => sid == bsid && p.action == "left"
    | _ => false)).length

/-! Helper lemmas about the association-list primitives and the stream table. -/

theorem getConnAL_mem {l : List (SocketId × Conn)} {sid : SocketId} {c : Conn}
    (h : getConnAL l sid = some c) : (sid, c) ∈ l := by
  induction l with
  | nil => simp [getConnAL] at h
  | cons p r ih =>
    obtain ⟨s, c0⟩ := p
    by_cases hs : s = sid
    · subst hs
      simp [getConnAL] at h
      simp [h]
    · simp [getConnAL, hs] at h
      exact List.mem_cons_of_mem _ (ih h)

theorem setConnAL_self {l : List (SocketId × Conn)} {sid : SocketId} {c : Conn}
    (h : getConnAL l sid = some c) : setConnAL l sid c = l := by
  induction l with
  | nil => rfl
  | cons p r ih =>
    obtain ⟨s, c0⟩ := p
    by_cases hs : s = sid
    · subst hs
      simp [getConnAL] at h
      simp [setConnAL, h]
    · simp [getConnAL, hs] at h
      simp [setConnAL, hs, ih h]

theorem getConnAL_set_ne {l : List (SocketId × Conn)} {sid sid' : SocketId} {c' : Conn}
    (h : sid' ≠ sid) : getConnAL (setConnAL l sid c') sid' = getConnAL l sid' := by
  induction l with
  | nil => rfl
  | cons p r ih =>
    obtain ⟨s, c0⟩ := p
    by_cases hs : s = sid
    · subst hs
      simp [setConnAL, getConnAL, Ne.symm h]
    · simp [setConnAL, hs, getConnAL, ih]

theorem mem_setConnAL {l : List (SocketId × Conn)} {sid : SocketId} {c' : Conn}
    {p : SocketId × Conn} (h : p ∈ setConnAL l sid c') : p ∈ l ∨ p = (sid, c') := by
  induction l with
  | nil => simp [setConnAL] at h
  | cons q r ih =>
    obtain ⟨s, c0⟩ := q
    by_cases hs : s = sid
    · subst hs
      simp [setConnAL] at h
      rcases h with h | h
      · exact Or.inr (by simp [h])
      · exact Or.inl (List.mem_cons_of_mem _ h)
    · simp [setConnAL, hs] at h
      rcases h with h | h
      · exact Or.inl (by simp [h])
      · rcases ih h with h' | h'
        · exact Or.inl (List.mem_cons_of_mem _ h')
        · exact Or.inr h'

theorem mem_eraseConnAL {l : List (SocketId × Conn)} {sid : SocketId}
    {p : SocketId × Conn} (h : p ∈ eraseConnAL l sid) : p ∈ l := by
  induction l with
  | nil => simp [eraseConnAL] at h
  | cons q r ih =>
    obtain ⟨s, c0⟩ := q
    by_cases hs : s = sid
    · subst hs
      simp [eraseConnAL] at h
      exact List.mem_cons_of_mem _ h
    · simp [eraseConnAL, hs] at h
      rcases h with h | h
      · simp [h]
      · exact List.mem_cons_of_mem _ (ih h)

theorem mgetAL_mset_self (l : List (Uid × SocketId)) (k : Uid) (v : SocketId) :
    mgetAL (msetAL l k v) k = some v := by
  induction l with
  | nil => simp [msetAL, mgetAL]
  | cons p r ih =>
    obtain ⟨k', v'⟩ := p
    by_cases hk : k' = k
    · simp [msetAL, hk, mgetAL]
    · simp [msetAL, hk, mgetAL, ih]

theorem mgetAL_mdel_none {l : List (Uid × SocketId)} {k : Uid} (k' : Uid)
    (h : mgetAL l k = none) : mgetAL (mdelAL l k') k = none := by
  induction l with
  | nil => exact h
  | cons p r ih =>
    obtain ⟨k0, v0⟩ := p
    by_cases h0 : k0 = k
    · subst h0
      simp [mgetAL] at h
    · simp [mgetAL, h0] at h
      by_cases h1 : k0 = k'
      · simpa [mdelAL, h1] using h
      · simp [mdelAL, h1, mgetAL, h0, ih h]

theorem mgetAL_eq_none_of_not_mem_keys {l : List (Uid × SocketId)} {k : Uid}
    (h : k ∉ l.map Prod.fst) : mgetAL l k = none := by
  induction l with
  | nil => rfl
  | cons p r ih =>
    obtain ⟨k0, v0⟩ := p
    have h1 : ¬k0 = k := by
      intro hh
      exact h (by simp [hh])
    have h2 : k ∉ r.map Prod.fst := by
      intro hh
      exact h (by simp [hh])
    simp [mgetAL, h1, ih h2]

theorem mgetAL_mdel_self_nodup {l : List (Uid × SocketId)} {k : Uid}
    (h : (l.map Prod.fst).Nodup) : mgetAL (mdelAL l k) k = none := by
  induction l with
  | nil => rfl
  | cons p r ih =>
    obtain ⟨k0, v0⟩ := p
    rw [List.map_cons, List.nodup_cons] at h
    by_cases h0 : k0 = k
    · subst h0
      simp [mdelAL]
      exact mgetAL_eq_none_of_not_mem_keys h.1
    · simp [mdelAL, h0, mgetAL, h0, ih h.2]

theorem mdelAL_keys_sublist (l : List (Uid × SocketId)) (k : Uid) :
    ((mdelAL l k).map Prod.fst).Sublist (l.map Prod.fst) := by
  induction l with
  | nil => simp [mdelAL]
  | cons p r ih =>
    obtain ⟨k0, v0⟩ := p
    by_cases h0 : k0 = k
    · simp [mdelAL, h0]
    · simp only [mdelAL, if_neg h0, List.map_cons]
      exact ih.cons₂ _

theorem mdelAL_keys_nodup {l : List (Uid × SocketId)} {k : Uid}
    (h : (l.map Prod.fst).Nodup) : ((mdelAL l k).map Prod.fst).Nodup :=
  h.sublist (mdelAL_keys_sublist l k)

theorem streamExists_update (db : List StreamRec) (u : Uid) (s : String) (u' : Uid) :
    streamExists (updateStreamStatus db u s) u' = streamExists db u' := by
  induction db with
  | nil => rfl
  | cons r rest ih =>
    by_cases h : r.uid = u
    · simp [updateStreamStatus, streamExists, h, ih]
    · simp [updateStreamStatus, streamExists, h, ih]

theorem statusOf_isSome_exists {db : List StreamRec} {u : Uid} {x : String}
    (h : statusOf db u = some x) : streamExists db u = true := by
  induction db with
  | nil => simp [statusOf] at h
  | cons r rest ih =>
    by_cases h0 : r.uid = u
    · simp [streamExists, h0]
    · simp [statusOf, h0] at h
      simp [streamExists, h0]
      exact ih h

theorem statusOf_update_self {db : List StreamRec} {u : Uid} (s : String)
    (h : streamExists db u = true) :
    statusOf (updateStreamStatus db u s) u = some s := by
  induction db with
  | nil => simp [streamExists] at h
  | cons r rest ih =>
    by_cases h0 : r.uid = u
    · simp [updateStreamStatus, statusOf, h0]
    · simp [streamExists, h0] at h
      simp [updateStreamStatus, statusOf, h0]
      exact ih h

theorem statusOf_update_ne {db : List StreamRec} {u u' : Uid} (s : String)
    (h : u' ≠ u) : statusOf (updateStreamStatus db u s) u' = statusOf db u' := by
  induction db with
  | nil => rfl
  | cons r rest ih =>
    by_cases h0 : r.uid = u
    · have hne : r.uid ≠ u' := by
        rw [h0]
        exact fun hh => h hh.symm
      simp [updateStreamStatus, statusOf, h0, hne, h, Ne.symm h, ih]
    · by_cases h1 : r.uid = u'
      · simp [updateStreamStatus, statusOf, h0, h1, h, Ne.symm h]
      · simp [updateStreamStatus, statusOf, h0, h1, h, Ne.symm h, ih]

theorem statusOf_update_offline {db : List StreamRec} {s : Uid} (u : Uid)
    (h : statusOf db s = some "offline") :
    statusOf (updateStreamStatus db u "offline") s = some "offline" := by
  by_cases h0 : s = u
  · subst h0
    exact statusOf_update_self _ (statusOf_isSome_exists h)
  · rw [statusOf_update_ne _ h0]
    exact h

/-! Lemmas about orphan reconciliation. -/

theorem cleanupOrphanedStream_conns (st : ServerState) (uid : Uid) :
    (cleanupOrphanedStream st uid).1.conns = st.conns := by
  unfold cleanupOrphanedStream
  by_cases h : streamExists st.db uid = true <;> simp [h]

theorem cleanupOrphanedStream_isConnected (st : ServerState) (uid : Uid) (sid : SocketId) :
    (cleanupOrphanedStream st uid).1.isConnected sid = st.isConnected sid := by
  simp [ServerState.isConnected, ServerState.getConn, cleanupOrphanedStream_conns]

theorem cleanupOrphanedStream_exists (st : ServerState) (uid u : Uid) :
    streamExists (cleanupOrphanedStream st uid).1.db u = streamExists st.db u := by
  unfold cleanupOrphanedStream
  by_cases h : streamExists st.db uid = true <;> simp [h, streamExists_update]

theorem cleanupOrphanedStream_nodup {st : ServerState} (u : Uid)
    (h : (st.activeStreamers.map Prod.fst).Nodup) :
    ((cleanupOrphanedStream st u).1.activeStreamers.map Prod.fst).Nodup := by
  unfold cleanupOrphanedStream
  by_cases hx : streamExists st.db u = true <;> simp [hx] <;> exact mdelAL_keys_nodup h

theorem cleanupOrphanedStream_preserves {s : Uid} {st : ServerState} (u : Uid)
    (h1 : mgetAL st.activeStreamers s = none)
    (h2 : statusOf st.db s = some "offline") :
    mgetAL (cleanupOrphanedStream st u).1.activeStreamers s = none ∧
    statusOf (cleanupOrphanedStream st u).1.db s = some "offline" := by
  unfold cleanupOrphanedStream
  by_cases h : streamExists st.db u = true
  · simp [h]
    exact ⟨mgetAL_mdel_none u h1, statusOf_update_offline u h2⟩
  · simp [h]
    exact ⟨mgetAL_mdel_none u h1, h2⟩

theorem orphanSweep_conns : ∀ (entries : List (Uid × SocketId)) (st : ServerState),
    (orphanSweep st entries).1.conns = st.conns := by
  intro entries
  induction entries with
  | nil => intro st; rfl
  | cons p rest ih =>
    intro st
    obtain ⟨uid, sid⟩ := p
    by_cases h : st.isConnected sid = true
    · simp [orphanSweep, h, ih]
    · simp [orphanSweep, h, ih, cleanupOrphanedStream_conns]

theorem orphanSweep_preserves {s : Uid} :
    ∀ (entries : List (Uid × SocketId)) (st : ServerState),
      mgetAL st.activeStreamers s = none → statusOf st.db s = some "offline" →
      mgetAL (orphanSweep st entries).1.activeStreamers s = none ∧
      statusOf (orphanSweep st entries).1.db s = some "offline" := by
  intro entries
  induction entries with
  | nil => intro st h1 h2; exact ⟨h1, h2⟩
  | cons p rest ih =>
    intro st h1 h2
    obtain ⟨uid, sid⟩ := p
    by_cases h : st.isConnected sid = true
    · simpa [orphanSweep, h] using ih st h1 h2
    · have hc := cleanupOrphanedStream_preserves uid h1 h2
      simpa [orphanSweep, h] using ih _ hc.1 hc.2

theorem orphanSweep_cleans :
    ∀ (entries : List (Uid × SocketId)) (st : ServerState) (s : Uid) (sid : SocketId),
      (s, sid) ∈ entries →
      (st.activeStreamers.map Prod.fst).Nodup →
      st.isConnected sid = false → streamExists st.db s = true →
      (mgetAL (orphanSweep st entries).1.activeStreamers s = none ∧
       statusOf (orphanSweep st entries).1.db s = some "offline") ∧
      Emit.streamEnded s "Stream finalizado: conexión TCP perdida" "tcp_disconnection" none
        ∈ (orphanSweep st entries).2 := by
  intro entries
  induction entries with
  | nil =>
    intro st s sid hm
    simp at hm
  | cons p rest ih =>
    intro st s sid hm hnodupR hdisc hex
    obtain ⟨k, v⟩ := p
    rcases List.mem_cons.mp hm with heq | hm'
    · obtain ⟨hk, hv⟩ := Prod.mk.injEq s sid k v ▸ heq
      subst hk
      subst hv
      have hinv1 : mgetAL (cleanupOrphanedStream st s).1.activeStreamers s = none := by
        unfold cleanupOrphanedStream
        by_cases hx : streamExists st.db s = true <;>
          simp [hx, mgetAL_mdel_self_nodup hnodupR]
      have hinv2 : statusOf (cleanupOrphanedStream st s).1.db s = some "offline" := by
        unfold cleanupOrphanedStream
        simp [hex]
        exact statusOf_update_self _ hex
      have hrest := orphanSweep_preserves rest (cleanupOrphanedStream st s).1 hinv1 hinv2
      have hemit : Emit.streamEnded s "Stream finalizado: conexión TCP perdida"
          "tcp_disconnection" none ∈ (cleanupOrphanedStream st s).2 := by
        unfold cleanupOrphanedStream
        simp [hex]
      constructor
      · simpa [orphanSweep, hdisc] using hrest
      · simp [orphanSweep, hdisc]
        exact Or.inl hemit
    · by_cases h : st.isConnected v = true
      · simpa [orphanSweep, h] using ih st s sid hm' hnodupR hdisc hex
      · have hnodupR' : ((cleanupOrphanedStream st k).1.activeStreamers.map Prod.fst).Nodup :=
          cleanupOrphanedStream_nodup k hnodupR
        have hdisc' : (cleanupOrphanedStream st k).1.isConnected sid = false := by
          rw [cleanupOrphanedStream_isConnected]
          exact hdisc
        have hex' : streamExists (cleanupOrphanedStream st k).1.db s = true := by
          rw [cleanupOrphanedStream_exists]
          exact hex
        have hr := ih (cleanupOrphanedStream st k).1 s sid hm' hnodupR' hdisc' hex'
        constructor
        · simpa [orphanSweep, h] using hr.1
        · simp [orphanSweep, h]
          exact Or.inr hr.2

/-! Claim theorems. -/

/-- C1: the spec requires `end_streaming` to enforce ownership, reply with an
error on a mismatch, leave the stream status unchanged and emit no global
notification. The code awaits the ownership query but never inspects its
result: a broadcaster-capable non-owner (user 2, socket 7) ending stream `s1`
owned by user 1 flips the record to `offline` and emits the global
`stream_ended{reason: manual}`, with no error reply. -/
theorem end_streaming_ignores_ownership :
    statusOf (stepE (run (initState dbOne) [.connect 7 uEve])
        (.endStreaming 7 "s1")).1.db "s1" = some "offline" ∧
    (stepE (run (initState dbOne) [.connect 7 uEve]) (.endStreaming 7 "s1")).2
      = [Emit.streamEnded "s1" "Stream finalizado por Eve" "manual" (some "false")] := by
  decide

/-- C2 counterexample: the claim says a connection whose role is not
broadcaster-capable receives a permission error on `start_streaming`. In the
code no handler is even registered for such a role, so the event is silently
dropped: a viewer-role socket sending `start_streaming` gets no reply at all
and the state is untouched. -/
theorem start_streaming_silent_for_viewer_role :
    stepE (run (initState dbOne) [.connect 4 uVera]) (.startStreaming 4 "s1")
      = (run (initState dbOne) [.connect 4 uVera], []) := by
  decide

/-- C3 counterexample: a viewer watches stream `a` and then stream `b` without
stopping; the connection stays in room `a` with `isAutoViewer=true`, so the
spec's live-membership count for `a` is 1, yet the initial per-connection
snapshot (which filters on `watchingStream === uid` instead of `isAutoViewer`)
reports 0 viewers for `a`. -/
theorem initial_list_viewer_count_mismatch :
    (stepE (run (initState dbTwo) [.connect 1 uVera, .watchLive 1 "a", .watchLive 1 "b"])
        (.getStreams 1)).2
      = [Emit.streamsListTo 1
          [⟨"a", "ta", "active", 1, 0, DEFAULT_AVATAR⟩,
           ⟨"b", "tb", "active", 1, 1, DEFAULT_AVATAR⟩]] ∧
    specViewerCount
        (run (initState dbTwo) [.connect 1 uVera, .watchLive 1 "a", .watchLive 1 "b"]) "a"
      = 1 := by
  decide

/-- C4 counterexample: the owner first watches their own active stream
(`isAutoViewer := true`) and then starts it (`isBroadcaster := true` without
clearing the viewer flag), reaching a state where both flags are true on one
connection. -/
theorem watch_then_start_sets_both_flags :
    ((run (initState dbOne)
        [.connect 1 uOwner, .watchLive 1 "s1", .startStreaming 1 "s1"]).getConn 1).map
      (fun c => (c.isBroadcaster, c.isAutoViewer)) = some (true, true) := by
  decide

/-- C5 counterexample: after two successive successful `start_streaming("s1")`
calls from two different connections of the same legitimate owner, the earlier
connection keeps `isBroadcaster=true` with `streamUid="s1"`, so it is not true
that only the later connection holds broadcaster status for the stream. -/
theorem both_connections_remain_flagged :
    ((run (initState dbOne)
        [.connect 1 uOwner, .connect 2 uOwner2, .startStreaming 1 "s1",
         .startStreaming 2 "s1"]).getConn 1).map
      (fun c => (c.isBroadcaster, c.streamUid)) = some (true, some "s1") ∧
    ((run (initState dbOne)
        [.connect 1 uOwner, .connect 2 uOwner2, .startStreaming 1 "s1",
         .startStreaming 2 "s1"]).getConn 2).map
      (fun c => (c.isBroadcaster, c.streamUid)) = some (true, some "s1") := by
  decide

/-- Invariant behind the amended C4: a connection whose role is not
broadcaster-capable can never acquire the broadcaster flag, because the
`start_streaming` handler is only registered for the `metro_streamer` role. -/
def roleGuardInv (st : ServerState) : Prop :=
  ∀ p ∈ st.conns, p.2.user.role ≠ "metro_streamer" → p.2.isBroadcaster = false

theorem roleGuardInv_step (st : ServerState) (e : Event) (h : roleGuardInv st) :
    roleGuardInv (step st e) := by
  cases e with
  | connect sid user =>
    by_cases hc : st.isConnected sid = true
    · simpa [step, stepE, hc] using h
    · intro p hp hrole
      simp only [step, stepE, hc, Bool.false_eq_true, if_false] at hp
      rcases List.mem_append.mp hp with hp | hp
      · exact h p hp hrole
      · simp at hp
        rw [hp]
        rfl
  | getStreams sid =>
    cases hg : st.getConn sid <;> simpa [step, stepE, hg] using h
  | watchLive sid uid =>
    cases hg : st.getConn sid with
    | none => simpa [step, stepE, hg] using h
    | some c =>
      cases hf : findActiveStream st.db uid with
      | none => simpa [step, stepE, hg, handleWatchLive, hf] using h
      | some r =>
        intro p hp hrole
        simp only [step, stepE, hg, handleWatchLive, hf, ServerState.updConn] at hp
        rcases mem_setConnAL hp with hp' | hp'
        · exact h p hp' hrole
        · rw [hp']
          rw [hp'] at hrole
          exact h (sid, c) (getConnAL_mem hg) hrole
  | stopWatching sid uid =>
    cases hg : st.getConn sid with
    | none => simpa [step, stepE, hg] using h
    | some c =>
      intro p hp hrole
      simp only [step, stepE, hg, handleStopWatching, ServerState.updConn] at hp
      rcases mem_setConnAL hp with hp' | hp'
      · exact h p hp' hrole
      · rw [hp']
        rw [hp'] at hrole
        exact h (sid, c) (getConnAL_mem hg) hrole
  | startStreaming sid uid =>
    cases hg : st.getConn sid with
    | none => simpa [step, stepE, hg] using h
    | some c =>
      by_cases hrole : c.user.role = "metro_streamer"
      · cases hf : findOwnedStream st.db uid c.user.id with
        | none => simpa [step, stepE, hg, hrole, handleStartStreaming, hf] using h
        | some r =>
          intro p hp hprole
          simp only [step, stepE, hg, hrole, if_true, handleStartStreaming, hf,
            ServerState.updConn] at hp
          rcases mem_setConnAL hp with hp' | hp'
          · exact h p hp' hprole
          · rw [hp'] at hprole
            exact absurd hrole hprole
      · simpa [step, stepE, hg, hrole] using h
  | endStreaming sid uid =>
    cases hg : st.getConn sid with
    | none => simpa [step, stepE, hg] using h
    | some c =>
      by_cases hrole : c.user.role = "metro_streamer"
      · by_cases hx : streamExists st.db uid = true
        · intro p hp hprole
          simp only [step, stepE, hg, hrole, if_true, handleEndStreaming, hx,
            ServerState.updConn] at hp
          rcases mem_setConnAL hp with hp' | hp'
          · exact h p hp' hprole
          · rw [hp']
        · simpa [step, stepE, hg, hrole, handleEndStreaming, hx] using h
      · simpa [step, stepE, hg, hrole] using h
  | disconnect sid =>
    cases hg : st.getConn sid with
    | none => simpa [step, stepE, hg] using h
    | some c =>
      intro p hp hrole
      have hp' : p ∈ eraseConnAL st.conns sid := by
        rcases hsu : c.streamUid with _ | s <;> rcases hw : c.watchingStream with _ | w <;>
          rcases hb : c.isBroadcaster with _ | _ <;>
            simpa [step, stepE, hg, handleDisconnect, hsu, hw, hb] using hp
      exact h p (mem_eraseConnAL hp') hrole
  | orphanCheck =>
    intro p hp hrole
    have : (orphanSweep st st.activeStreamers).1.conns = st.conns :=
      orphanSweep_conns st.activeStreamers st
    simp only [step, stepE, checkDisconnectedStreamers, this] at hp
    exact h p hp hrole

theorem roleGuardInv_run (db : List StreamRec) (es : List Event) :
    roleGuardInv (run (initState db) es) := by
  have hbase : roleGuardInv (initState db) := by
    intro p hp
    simp [initState] at hp
  have : ∀ (l : List Event) (st : ServerState), roleGuardInv st → roleGuardInv (run st l) := by
    intro l
    induction l with
    | nil => intro st h; exact h
    | cons e rest ih =>
      intro st h
      exact ih (step st e) (roleGuardInv_step st e h)
  exact this es (initState db) hbase

/-- C4 amended: the mutual-exclusion invariant between `isBroadcaster` and
`isAutoViewer` holds for every connection whose identity role is not
broadcaster-capable (such a connection can never set `isBroadcaster`), but not
in general: a broadcaster-capable connection that watches a stream and then
starts its own holds both flags, since neither handler clears the other flag
(see the counterexample). -/
theorem at_most_one_flag_for_viewer_roles :
    ∀ (db : List StreamRec) (es : List Event) (sid : SocketId) (c : Conn),
      (run (initState db) es).getConn sid = some c →
      c.user.role ≠ "metro_streamer" →
      ¬(c.isBroadcaster = true ∧ c.isAutoViewer = true) := by
  intro db es sid c hg hrole hcontra
  have hfalse := roleGuardInv_run db es (sid, c) (getConnAL_mem hg) hrole
  rw [hcontra.1] at hfalse
  cases hfalse

/-- C4 amended witness: a freshly connected viewer-role socket satisfies the
mutual exclusion. -/
theorem at_most_one_flag_for_viewer_roles_witness :
    ¬((Conn.mk0 uVera).isBroadcaster = true ∧ (Conn.mk0 uVera).isAutoViewer = true) :=
  at_most_one_flag_for_viewer_roles dbOne [.connect 4 uVera] 4 (Conn.mk0 uVera)
    (by decide) (by decide)

/-- Connection state of the owner of `s1` right after a successful
`start_streaming("s1")` on a fresh socket. -/
def cOwnerLive : Conn := ⟨uOwner, true, some "s1", none, false, ["s1"]⟩

/-- State reached by the owner connecting on socket 1 and starting `s1`. -/
def stLiveOwner : ServerState :=
  run (initState dbOne) [.connect 1 uOwner, .startStreaming 1 "s1"]

/-- State whose active-streamer registry tracks `s1` under socket 9, which is
no longer open: exactly what the orphan-reconciliation pass looks for. -/
def stOrphan : ServerState := ⟨[], dbOne, [("s1", 9)], false⟩

/-- C6: (a) when a broadcaster of stream `s` disconnects without
`end_streaming`, the only effects are removal of the registry entry for `s`
and removal of the connection — database untouched, nothing emitted; (b) an
orphan-reconciliation pass finding `s` tracked under a socket that is no
longer open removes the registry entry, sets the record offline and broadcasts
the global `stream_ended{reason: tcp_disconnection}`. -/
theorem broadcaster_disconnect_and_orphan_reconciliation :
    (∀ (st : ServerState) (sid : SocketId) (c : Conn) (s : Uid),
      st.getConn sid = some c → c.isBroadcaster = true → c.streamUid = some s →
      c.watchingStream = none →
      stepE st (.disconnect sid)
        = ({ st with conns := eraseConnAL st.conns sid,
                     activeStreamers := mdelAL st.activeStreamers s }, [])) ∧
    (∀ (st : ServerState) (s : Uid) (sid : SocketId),
      (s, sid) ∈ st.activeStreamers →
      (st.activeStreamers.map Prod.fst).Nodup →
      st.isConnected sid = false → streamExists st.db s = true →
      mgetAL (stepE st .orphanCheck).1.activeStreamers s = none ∧
      statusOf (stepE st .orphanCheck).1.db s = some "offline" ∧
      Emit.streamEnded s "Stream finalizado: conexión TCP perdida" "tcp_disconnection" none
        ∈ (stepE st .orphanCheck).2) := by
  constructor
  · intro st sid c s hg hb hs hw
    simp [stepE, hg, handleDisconnect, hs, hb, hw]
  · intro st s sid hm hnodup hdisc hex
    have h := orphanSweep_cleans st.activeStreamers st s sid hm hnodup hdisc hex
    exact ⟨h.1.1, h.1.2, h.2⟩

/-- C6 witness: the owner live on socket 1 disconnects — only the connection
and the registry entry disappear, nothing is emitted; and a sweep over a
registry tracking `s1` under the closed socket 9 cleans it up, flips the row
offline and broadcasts the tcp_disconnection notification. -/
theorem broadcaster_disconnect_and_orphan_reconciliation_witness :
    stepE stLiveOwner (.disconnect 1)
      = ({ stLiveOwner with
             conns := eraseConnAL stLiveOwner.conns 1,
             activeStreamers := mdelAL stLiveOwner.activeStreamers "s1" }, []) ∧
    (mgetAL (stepE stOrphan .orphanCheck).1.activeStreamers "s1" = none ∧
     statusOf (stepE stOrphan .orphanCheck).1.db "s1" = some "offline" ∧
     Emit.streamEnded "s1" "Stream finalizado: conexión TCP perdida" "tcp_disconnection" none
       ∈ (stepE stOrphan .orphanCheck).2) :=
  ⟨broadcaster_disconnect_and_orphan_reconciliation.1 stLiveOwner 1 cOwnerLive "s1"
      (by decide) (by decide) (by decide) (by decide),
   broadcaster_disconnect_and_orphan_reconciliation.2 stOrphan "s1" 9
      (by decide) (by decide) (by decide) (by decide)⟩

/-- C2 amended: on `start_streaming`, a connection whose role is not
broadcaster-capable gets no reply at all — the handler is simply not
registered, so the event is dropped and the state (hence the stream status and
the broadcaster flag) is unchanged; a broadcaster-capable connection that does
not own a matching stream record gets the not-found/forbidden error reply,
again with the state unchanged. -/
theorem start_streaming_failure_paths :
    ∀ (st : ServerState) (sid : SocketId) (c : Conn) (uid : Uid),
      st.getConn sid = some c →
      ((c.user.role ≠ "metro_streamer" →
          stepE st (.startStreaming sid uid) = (st, [])) ∧
       (c.user.role = "metro_streamer" →
          findOwnedStream st.db uid c.user.id = none →
          stepE st (.startStreaming sid uid)
            = (st, [Emit.errorTo sid none "Stream no encontrado o no tienes permisos"]))) := by
  intro st sid c uid hg
  constructor
  · intro hrole
    simp [stepE, hg, hrole]
  · intro hrole hf
    simp [stepE, hg, hrole, handleStartStreaming, hf]

/-- C2 amended witness: a viewer-role socket gets silence; the non-owner
broadcaster-capable user Eve gets the not-found/forbidden error, with the
state unchanged in both cases. -/
theorem start_streaming_failure_paths_witness :
    stepE (run (initState dbOne) [.connect 4 uVera]) (.startStreaming 4 "s1")
      = (run (initState dbOne) [.connect 4 uVera], []) ∧
    stepE (run (initState dbOne) [.connect 7 uEve]) (.startStreaming 7 "s1")
      = (run (initState dbOne) [.connect 7 uEve],
         [Emit.errorTo 7 none "Stream no encontrado o no tienes permisos"]) :=
  ⟨(start_streaming_failure_paths _ 4 (Conn.mk0 uVera) "s1" (by decide)).1 (by decide),
   (start_streaming_failure_paths _ 7 (Conn.mk0 uEve) "s1" (by decide)).2
     (by decide) (by decide)⟩

/-- C3 amended: the debounced global broadcast computes each stream's
`viewersCount` exactly as the spec invariant demands (room members with
`isAutoViewer=true`, `isBroadcaster=false`, recomputed from live membership),
but the initial per-connection snapshot instead counts room members with
`watchingStream` equal to the stream and `isBroadcaster=false`; the two can
differ (see the counterexample). -/
theorem viewer_count_of_emissions :
    ∀ (st : ServerState) (r : StreamRec),
      (broadcastEntry st r).viewersCount = specViewerCount st r.uid ∧
      (initialEntry st r).viewersCount = watchingViewerCount st r.uid := by
  intro st r
  constructor
  · simp only [broadcastEntry, specViewerCount]
    congr 1
    apply List.filter_congr
    intro p _
    exact Bool.and_comm _ _
  · rfl

/-- State reached by the owner connecting on two sockets and starting `s1`
from the first one. -/
def stTwoConns : ServerState :=
  run (initState dbOne) [.connect 1 uOwner, .connect 2 uOwner2, .startStreaming 1 "s1"]

/-- C5 amended: a successful `start_streaming` overwrites the Active-Streamer
Registry entry for the stream with the calling socket (last writer wins, so
the registry tracks at most one connection per stream), but it leaves every
other connection untouched — in particular an earlier broadcaster connection
keeps its `isBroadcaster`/`streamUid` flags, so at the connection level more
than one socket can simultaneously be flagged as broadcaster of the stream
(see the counterexample). -/
theorem registry_last_writer_wins :
    ∀ (st : ServerState) (sid : SocketId) (c : Conn) (uid : Uid) (r : StreamRec),
      st.getConn sid = some c → c.user.role = "metro_streamer" →
      findOwnedStream st.db uid c.user.id = some r →
      mgetAL (stepE st (.startStreaming sid uid)).1.activeStreamers uid = some sid ∧
      (∀ (sid' : SocketId) (c' : Conn), sid' ≠ sid → st.getConn sid' = some c' →
        (stepE st (.startStreaming sid uid)).1.getConn sid' = some c') := by
  intro st sid c uid r hg hrole hf
  have hg2 : getConnAL st.conns sid = some c := hg
  constructor
  · simp [stepE, hg, hrole, handleStartStreaming, hf, mgetAL_mset_self]
  · intro sid' c' hne hg'
    have hg2' : getConnAL st.conns sid' = some c' := hg'
    simp [stepE, ServerState.getConn, hg2, hrole, handleStartStreaming, hf,
      ServerState.updConn, getConnAL_set_ne hne, hg2']

/-- C5 amended witness: after the owner's second socket also starts `s1`, the
registry maps `s1` to socket 2, while socket 1 keeps its broadcaster state. -/
theorem registry_last_writer_wins_witness :
    mgetAL (stepE stTwoConns (.startStreaming 2 "s1")).1.activeStreamers "s1" = some 2 ∧
    (stepE stTwoConns (.startStreaming 2 "s1")).1.getConn 1 = some cOwnerLive :=
  ⟨(registry_last_writer_wins stTwoConns 2 (Conn.mk0 uOwner2) "s1" ⟨"s1", 1, "t1", "active"⟩
      (by decide) (by decide) (by decide)).1,
   (registry_last_writer_wins stTwoConns 2 (Conn.mk0 uOwner2) "s1" ⟨"s1", 1, "t1", "active"⟩
      (by decide) (by decide) (by decide)).2 1 cOwnerLive (by decide) (by decide)⟩

/-- C8 counterexample: a broadcaster (socket 1) is live on `s1` and a viewer
(socket 2) watches it; the viewer then emits `stop_watching("s1")` twice in a
row. The handler notifies the broadcaster unconditionally, so the broadcaster
receives two `viewer_update{action: left}` notifications, not one. -/
theorem stop_watching_twice_notifies_twice :
    countViewerLeft 1 (runTrace (run (initState dbOff)
        [.connect 1 uOwner, .startStreaming 1 "s1", .connect 2 uVera, .watchLive 2 "s1"])
        [.stopWatching 2 "s1", .stopWatching 2 "s1"]).2 = 2 := by
  decide

theorem runDebounce_within :
    ∀ (cs : List Nat) (p : Nat), withinWindowB p cs = true →
      runDebounce (some (p + DEBOUNCE_MS)) cs = [lastCall p cs + DEBOUNCE_MS] := by
  intro cs
  induction cs with
  | nil => intro p _; rfl
  | cons t rest ih =>
    intro p h
    simp only [withinWindowB, Bool.and_eq_true, decide_eq_true_eq] at h
    have hlt : ¬(p + DEBOUNCE_MS ≤ t) := by omega
    have hlast : lastCall p (t :: rest) = lastCall t rest := by
      simp [lastCall]
    rw [hlast]
    simpa [runDebounce, hlt] using ih t h.2

/-- C7: any burst of N ≥ 1 calls to the broadcast scheduler, each landing
inside the debounce window opened by the previous call (so each call cancels
and re-arms the pending timer), yields exactly one streams-list broadcast to
all connected clients, fired one debounce delay after the last call. -/
theorem debounce_coalesces_burst :
    ∀ (st : ServerState) (c : Nat) (cs : List Nat), withinWindowB c cs = true →
      debounceBroadcasts st (c :: cs)
        = [(lastCall c cs + DEBOUNCE_MS,
            [Emit.streamsListAll (broadcastStreamsList st)])] := by
  intro st c cs h
  have : debounceRun (c :: cs) = [lastCall c cs + DEBOUNCE_MS] := by
    simpa [debounceRun, runDebounce] using runDebounce_within cs c h
  simp [debounceBroadcasts, this, broadcastUpdatedStreamsList]

/-- C7 witness: three schedule calls at 0ms, 50ms and 90ms (each within 100ms
of the previous one) produce exactly one broadcast, at 190ms. -/
theorem debounce_coalesces_burst_witness :
    debounceBroadcasts (initState dbOne) [0, 50, 90]
      = [(190, [Emit.streamsListAll (broadcastStreamsList (initState dbOne))])] := by
  have h := debounce_coalesces_burst (initState dbOne) 0 [50, 90] (by decide)
  simpa [lastCall, DEBOUNCE_MS] using h

/-- C8 amended: the state clearing of `stop_watching` is idempotent, but the
notification is not: a call on a connection whose watching state is already
cleared leaves the connection (and everything except the debounce flag)
unchanged, yet still sends the broadcaster a fresh `viewer_update{action:
left}` notification — so two successive calls produce two notifications, not
one (see the counterexample). -/
theorem stop_watching_second_call_renotifies :
    ∀ (st : ServerState) (sid : SocketId) (c : Conn) (uid : Uid),
      st.getConn sid = some c → c.watchingStream = none → c.isAutoViewer = false →
      uid ∉ c.rooms →
      stepE st (.stopWatching sid uid)
        = ({ st with broadcastPending := true },
           notifyStreamerAboutViewers st uid "left" (mkViewerInfo sid c.user none)) := by
  intro st sid c uid hg hw ha hr
  have hg2 : getConnAL st.conns sid = some c := hg
  have hcc : ({ c with rooms := leaveRoom c.rooms uid, watchingStream := none,
                       isAutoViewer := false } : Conn) = c := by
    obtain ⟨u, b, s, w, a, rs⟩ := c
    simp only at hw ha hr
    simp [leaveRoom, List.erase_of_not_mem hr, hw, ha]
  simp [stepE, ServerState.getConn, hg2, handleStopWatching, hcc,
    ServerState.updConn, setConnAL_self hg2]

/-- State with the owner live on `s1` (socket 1) and a viewer connected on
socket 2 who is not watching anything. -/
def stCleared : ServerState :=
  run (initState dbOff) [.connect 1 uOwner, .startStreaming 1 "s1", .connect 2 uVera]

/-- C8 amended witness: `stop_watching("s1")` from the non-watching viewer
socket 2 leaves the state unchanged apart from re-arming the debounce, yet
still emits a `left` notification to the broadcaster. -/
theorem stop_watching_second_call_renotifies_witness :
    stepE stCleared (.stopWatching 2 "s1")
      = ({ stCleared with broadcastPending := true },
         notifyStreamerAboutViewers stCleared "s1" "left" (mkViewerInfo 2 uVera none)) :=
  stop_watching_second_call_renotifies stCleared 2 (Conn.mk0 uVera) "s1"
    (by decide) (by decide) (by decide) (by decide)

/-- Whether a trace consists of exactly one structured `error` reply to `sid`
naming the `send-message` event (and in particular contains no `new-message`). -/
def isSendMessageError (sid : SocketId) : List Emit → Bool
  | [Emit.errorTo s (some e) _] => s == sid && e == "send-message"
  | _ => false

/-- C9: `send-message` replies to the sender with a structured error naming
the event — and emits no `new-message` — whenever the message is empty or
whitespace-only after trimming, is not a string, or the stream uid is not a
string; on success the single `new-message` envelope carries the trimmed
message. -/
theorem send_message_validation :
    ∀ (sid : SocketId) (c : Conn) (uidV msgV : JSVal),
      (((∃ m, msgV = JSVal.str m ∧ jsTrim m = "") ∨ msgV = JSVal.notStr ∨
          uidV = JSVal.notStr) →
        isSendMessageError sid (handleSendMessage sid c uidV msgV) = true) ∧
      (∀ (u : Uid) (m : String), uidV = JSVal.str u → u ≠ "" → msgV = JSVal.str m →
        jsTrim m ≠ "" →
        handleSendMessage sid c uidV msgV
          = [Emit.newMessageRoom u (chatEnvelope c u m)] ∧
        (chatEnvelope c u m).message = jsTrim m) := by
  intro sid c uidV msgV
  constructor
  · intro hbad
    cases uidV with
    | notStr => simp [handleSendMessage, isSendMessageError]
    | str u =>
      by_cases hu : u = ""
      · simp [handleSendMessage, hu, isSendMessageError]
      · rcases hbad with ⟨m, hm, ht⟩ | hm | huid
        · subst hm
          simp [handleSendMessage, hu, ht, isSendMessageError]
        · subst hm
          simp [handleSendMessage, hu, isSendMessageError]
        · simp at huid
  · intro u m hu hue hm hmt
    subst hu
    subst hm
    exact ⟨by simp [handleSendMessage, hue, hmt], rfl⟩

/-- C9 witness: the spec scenario — a whitespace-only message to stream
"abc123" is rejected with the structured `send-message` error; a real message
goes through as a single `new-message` carrying the trimmed text. -/
theorem send_message_validation_witness :
    isSendMessageError 2
        (handleSendMessage 2 (Conn.mk0 uVera) (JSVal.str "abc123") (JSVal.str "  "))
      = true ∧
    (handleSendMessage 2 (Conn.mk0 uVera) (JSVal.str "abc123") (JSVal.str " hola "))
      = [Emit.newMessageRoom "abc123" (chatEnvelope (Conn.mk0 uVera) "abc123" " hola ")] :=
  ⟨(send_message_validation 2 (Conn.mk0 uVera) (JSVal.str "abc123") (JSVal.str "  ")).1
      (Or.inl ⟨"  ", rfl, by decide⟩),
   ((send_message_validation 2 (Conn.mk0 uVera) (JSVal.str "abc123")
        (JSVal.str " hola ")).2 "abc123" " hola " rfl (by decide) rfl (by decide)).1⟩

/-- C10: on a successful `send-message`, the single `new-message` envelope
carries the sender's display name with the suffix " (Anfitrión)" exactly when
the sender's connection is flagged as broadcaster; the envelope goes to room
membership without excluding the sender, so every connection in the room —
the sender included, whenever it is a room member — receives it. -/
theorem new_message_host_suffix_and_delivery :
    ∀ (st : ServerState) (sid : SocketId) (c : Conn) (u : Uid) (m : String),
      st.getConn sid = some c → u ≠ "" → jsTrim m ≠ "" →
      handleSendMessage sid c (JSVal.str u) (JSVal.str m)
        = [Emit.newMessageRoom u (chatEnvelope c u m)] ∧
      (chatEnvelope c u m).user.displayName
        = (if c.isBroadcaster then c.user.displayName ++ " (Anfitrión)"
           else c.user.displayName) ∧
      emitRecipients st (Emit.newMessageRoom u (chatEnvelope c u m)) = roomRecipients st u ∧
      (∀ (sid' : SocketId) (c' : Conn), st.getConn sid' = some c' → u ∈ c'.rooms →
        sid' ∈ roomRecipients st u) ∧
      (u ∈ c.rooms → sid ∈ roomRecipients st u) := by
  intro st sid c u m hg hu hm
  have hrecip : ∀ (sid' : SocketId) (c' : Conn), st.getConn sid' = some c' →
      u ∈ c'.rooms → sid' ∈ roomRecipients st u := by
    intro sid' c' hg' hroom
    have hmem : (sid', c') ∈ st.conns := getConnAL_mem hg'
    refine List.mem_map.mpr ⟨(sid', c'), ?_, rfl⟩
    exact List.mem_filter.mpr ⟨hmem, by simpa using hroom⟩
  refine ⟨by simp [handleSendMessage, hu, hm], rfl, rfl, hrecip, hrecip sid c hg⟩

/-- Connection state of the viewer on socket 2 of `stLive` while watching
`s1`. -/
def cVeraWatching : Conn := ⟨uVera, false, none, some "s1", true, ["s1"]⟩

/-- State with the owner broadcasting `s1` on socket 1 and the viewer watching
it on socket 2. -/
def stLive : ServerState :=
  run (initState dbOff) [.connect 1 uOwner, .startStreaming 1 "s1", .connect 2 uVera,
    .watchLive 2 "s1"]

/-- C10 witness: the watching viewer sends a chat message — one `new-message`
to the room, and the sender (socket 2, a member of room `s1`) is among the
recipients. -/
theorem new_message_host_suffix_and_delivery_witness :
    handleSendMessage 2 cVeraWatching (JSVal.str "s1") (JSVal.str " hola ")
      = [Emit.newMessageRoom "s1" (chatEnvelope cVeraWatching "s1" " hola ")] ∧
    2 ∈ roomRecipients stLive "s1" :=
  ⟨(new_message_host_suffix_and_delivery stLive 2 cVeraWatching "s1" " hola "
      (by decide) (by decide) (by decide)).1,
   (new_message_host_suffix_and_delivery stLive 2 cVeraWatching "s1" " hola "
      (by decide) (by decide) (by decide)).2.2.2.2 (by decide)⟩

end ApiStreaming
